import Mathlib

/-!
Verification of the single-account ledger (`account.py`): the confirmation-code
codec, the shared transaction counter, the TimeZone value object, and the
balance-mutating operations `deposit`, `withdraw`, `pay_interest`.

Modelling conventions (shallow embedding of the Python source):
* Python real numbers (`numbers.Real`) are modelled as `ℚ` (exact arithmetic,
  matching the data model "balance: real" of the design document).
* Python dynamic values passed to validators are modelled by `PyVal`
  (an int, a float, a string, or None); `isinstance(x, Integral)` holds exactly
  for `PyVal.int`, `isinstance(x, Real)` for `PyVal.int` and `PyVal.float`.
* A raised Python exception is modelled as `Except.error` carrying a `PyError`:
  `PyError.valueError` for `ValueError` (the spec's ValidationError and
  FormatError both correspond to `ValueError` in the source) and
  `PyError.keyError` for `KeyError` (raised by `Enum` name lookup).
* The wall clock (`datetime.utcnow()`) is an explicit `DT` argument; the
  process-wide `itertools.count(100)` counter and the class-wide interest rate
  are explicit state threaded through the operations.
* `datetime.strptime(s, "%Y%m%d%H%M%S")` is modelled faithfully after
  CPython's `_strptime`: a backtracking matcher whose year field is exactly
  four ASCII digits while month/day/hour/minute/second may be one or two
  digits (ordered alternatives, longer first), followed by the range checks of
  the `datetime` constructor.  The model covers ASCII digits (the digits that
  occur in every code the program itself generates).
* `datetime + timedelta` is implemented exactly, via days-from-civil /
  civil-from-days calendar conversion; the model does not reproduce
  `OverflowError` outside `datetime`'s year range, which no claim touches.
-/

/-- A raised Python exception: `ValueError` (validation/format failures) or
`KeyError` (failed `Enum` name lookup). -/
inductive PyError where
  | valueError (msg : String)
  | keyError (msg : String)
deriving DecidableEq, Repr

/-- A dynamically typed Python value handed to a validator: an `int`, a
`float`, a `str`, or `None`. -/
inductive PyVal where
  | int (n : Int)
  | float (q : ℚ)
  | str (s : String)
  | noneV
deriving DecidableEq, Repr

/-- `isinstance(v, numbers.Real)`: the numeric value of an int or float. -/
def PyVal.toReal : PyVal → Option ℚ
  | .int n => some (n : ℚ)
  | .float q => some q
  | _ => none

/-- A naive `datetime` at second resolution (what
`strptime('%Y%m%d%H%M%S')` produces). -/
structure DT where
  year : Nat
  month : Nat
  day : Nat
  hour : Nat
  minute : Nat
  second : Nat
deriving DecidableEq, Repr

/-- Gregorian leap year, as in Python's `calendar`/`datetime`. -/
def isLeap (y : Nat) : Bool :=
  (y % 4 == 0 && y % 100 != 0) || y % 400 == 0

/-- Length of a month, as enforced by the `datetime` constructor. -/
def daysInMonth (y m : Nat) : Nat :=
  if m = 2 then (if isLeap y then 29 else 28)
  else if m = 4 ∨ m = 6 ∨ m = 9 ∨ m = 11 then 30
  else 31

/-- The field ranges accepted by the `datetime` constructor (year within
`MINYEAR..MAXYEAR`, calendar-valid day, seconds below 60). -/
def validDate (dt : DT) : Prop :=
  1 ≤ dt.year ∧ dt.year ≤ 9999 ∧
  1 ≤ dt.month ∧ dt.month ≤ 12 ∧
  1 ≤ dt.day ∧ dt.day ≤ daysInMonth dt.year dt.month ∧
  dt.hour ≤ 23 ∧ dt.minute ≤ 59 ∧ dt.second ≤ 59

instance (dt : DT) : Decidable (validDate dt) := by
  unfold validDate; infer_instance

/-- Decimal digits of `n`, most significant first: the characters of Python's
`str(n)` for a non-negative int (also used by `f"{n}"`). -/
def natDigits (n : Nat) : List Char :=
  if _h : n < 10 then [Nat.digitChar n]
  else natDigits (n / 10) ++ [Nat.digitChar (n % 10)]
termination_by n
decreasing_by exact Nat.div_lt_self (by omega) (by omega)

/-- Python's `str(n)` for a non-negative integer. -/
def natDecimal (n : Nat) : String := String.mk (natDigits n)

/-- Python's `s.strip()`: drop whitespace from both ends. -/
def pyStrip (s : String) : String :=
  String.mk (((s.data.dropWhile Char.isWhitespace).reverse.dropWhile Char.isWhitespace).reverse)

/-- Two zero-padded decimal digits (`%m`, `%d`, `%H`, `%M`, `%S` of
`strftime` on in-range values). -/
def pad2 (n : Nat) : List Char :=
  [Nat.digitChar (n / 10), Nat.digitChar (n % 10)]

/-- Four zero-padded decimal digits (`%Y` of `strftime` on 4-digit years). -/
def pad4 (n : Nat) : List Char :=
  [Nat.digitChar (n / 1000), Nat.digitChar (n / 100 % 10),
   Nat.digitChar (n / 10 % 10), Nat.digitChar (n % 10)]

/-- `dt.strftime('%Y%m%d%H%M%S')`. -/
def fmtDT (dt : DT) : String :=
  String.mk (pad4 dt.year ++ pad2 dt.month ++ pad2 dt.day ++
             pad2 dt.hour ++ pad2 dt.minute ++ pad2 dt.second)

/-- `dt.isoformat()` for a microsecond-free naive datetime:
`YYYY-MM-DDTHH:MM:SS`. -/
def isoformatDT (dt : DT) : String :=
  String.mk (pad4 dt.year ++ '-' :: pad2 dt.month ++ '-' :: pad2 dt.day ++
             'T' :: pad2 dt.hour ++ ':' :: pad2 dt.minute ++ ':' :: pad2 dt.second)

/-- Days since 1970-01-01 of a civil date (Howard Hinnant's algorithm,
floor conventions). -/
def daysFromCivil (y m d : Int) : Int :=
  let y := if m ≤ 2 then y - 1 else y
  let era := Int.fdiv y 400
  let yoe := y - era * 400
  let mp := Int.emod (m + 9) 12
  let doy := Int.fdiv (153 * mp + 2) 5 + d - 1
  let doe := yoe * 365 + Int.fdiv yoe 4 - Int.fdiv yoe 100 + doy
  era * 146097 + doe - 719468

/-- Civil date of a count of days since 1970-01-01 (inverse of
`daysFromCivil`). -/
def civilFromDays (z : Int) : Int × Int × Int :=
  let z := z + 719468
  let era := Int.fdiv z 146097
  let doe := z - era * 146097
  let yoe := Int.fdiv (doe - Int.fdiv doe 1460 + Int.fdiv doe 36524 - Int.fdiv doe 146096) 365
  let y := yoe + era * 400
  let doy := doe - (365 * yoe + Int.fdiv yoe 4 - Int.fdiv yoe 100)
  let mp := Int.fdiv (5 * doy + 2) 153
  let d := doy - Int.fdiv (153 * mp + 2) 5 + 1
  let m := mp + (if mp < 10 then 3 else -9)
  (if m ≤ 2 then y + 1 else y, m, d)

/-- `dt + timedelta(seconds = off)`: exact naive-datetime arithmetic. -/
def addSeconds (dt : DT) (off : Int) : DT :=
  let days := daysFromCivil (dt.year) (dt.month) (dt.day)
  let total := days * 86400 + (dt.hour : Int) * 3600 + (dt.minute : Int) * 60 + (dt.second : Int) + off
  let day2 := Int.fdiv total 86400
  let sod := Int.emod total 86400
  let c := civilFromDays day2
  ⟨c.1.toNat, c.2.1.toNat, c.2.2.toNat,
   (Int.fdiv sod 3600).toNat, (Int.emod sod 3600 / 60).toNat, (Int.emod sod 60).toNat⟩

/-- Python's `s.split('-')` on the character list of `s`. -/
def splitDash : List Char → List (List Char)
  | [] => [[]]
  | c :: rest =>
    if c = '-' then [] :: splitDash rest
    else
      match splitDash rest with
      | h :: t => (c :: h) :: t
      | [] => [[c]]

/-- One alternative of a `_strptime` field pattern: consumes one or two
characters and yields the numeric value of the consumed digits. -/
abbrev StrpAlt := List Char → Option (Nat × List Char)

/-- A two-character alternative `[lo1-hi1][lo2-hi2]` over ASCII digits
(e.g. `1[0-2]` is `twoDigitN 1 1 0 2`). -/
def twoDigitN (lo1 hi1 lo2 hi2 : Nat) : StrpAlt := fun s =>
  match s with
  | c1 :: c2 :: rest =>
    if c1.isDigit ∧ lo1 ≤ c1.toNat - 48 ∧ c1.toNat - 48 ≤ hi1 ∧
       c2.isDigit ∧ lo2 ≤ c2.toNat - 48 ∧ c2.toNat - 48 ≤ hi2 then
      some (10 * (c1.toNat - 48) + (c2.toNat - 48), rest)
    else none
  | _ => none

/-- A one-character alternative `[lo-hi]` over ASCII digits. -/
def oneDigitN (lo hi : Nat) : StrpAlt := fun s =>
  match s with
  | c :: rest =>
    if c.isDigit ∧ lo ≤ c.toNat - 48 ∧ c.toNat - 48 ≤ hi then
      some (c.toNat - 48, rest)
    else none
  | _ => none

/-- Ordered-alternative matching with backtracking: try each alternative in
order; on a match, run the continuation, and fall through to the next
alternative if the continuation fails (regex alternation semantics). -/
def runAlts {α : Type} (alts : List StrpAlt) (s : List Char)
    (k : Nat → List Char → Option α) : Option α :=
  match alts with
  | [] => none
  | a :: tl =>
    match a s with
    | some (v, s1) =>
      match k v s1 with
      | some r => some r
      | none => runAlts tl s k
    | none => runAlts tl s k

/-- `%m` of `_strptime`: `1[0-2]|0[1-9]|[1-9]`. -/
def monthAlts : List StrpAlt :=
  [twoDigitN 1 1 0 2, twoDigitN 0 0 1 9, oneDigitN 1 9]

/-- `%d` of `_strptime`: `3[01]|[12]\d|0[1-9]|[1-9]`. -/
def dayAlts : List StrpAlt :=
  [twoDigitN 3 3 0 1, twoDigitN 1 2 0 9, twoDigitN 0 0 1 9, oneDigitN 1 9]

/-- `%H` of `_strptime`: `2[0-3]|[01]\d|\d`. -/
def hourAlts : List StrpAlt :=
  [twoDigitN 2 2 0 3, twoDigitN 0 1 0 9, oneDigitN 0 9]

/-- `%M` of `_strptime`: `[0-5]\d|\d`. -/
def minuteAlts : List StrpAlt :=
  [twoDigitN 0 5 0 9, oneDigitN 0 9]

/-- `%S` of `_strptime`: `6[01]|[0-5]\d|\d`. -/
def secondAlts : List StrpAlt :=
  [twoDigitN 6 6 0 1, twoDigitN 0 5 0 9, oneDigitN 0 9]

/-- The `_strptime` regex for `%Y%m%d%H%M%S`: a four-digit year followed by
the five variable-width fields, returning the first match in
depth-first ordered-alternative order together with the unconsumed rest
(the engine stops at the first match; trailing input is checked separately). -/
def matchYmdHMS (s : List Char) : Option (DT × List Char) :=
  match s with
  | a :: b :: c :: d :: rest =>
    if a.isDigit ∧ b.isDigit ∧ c.isDigit ∧ d.isDigit then
      runAlts monthAlts rest fun mo s1 =>
        runAlts dayAlts s1 fun da s2 =>
          runAlts hourAlts s2 fun hh s3 =>
            runAlts minuteAlts s3 fun mi s4 =>
              runAlts secondAlts s4 fun se s5 =>
                some (⟨1000 * (a.toNat - 48) + 100 * (b.toNat - 48) +
                       10 * (c.toNat - 48) + (d.toNat - 48), mo, da, hh, mi, se⟩, s5)
    else none
  | _ => none

/-- `datetime.strptime(s, '%Y%m%d%H%M%S')`: match the pattern, reject
unconverted trailing data, then apply the `datetime` constructor's range
checks. -/
def strptimeYmdHMS (s : String) : Option DT :=
  match matchYmdHMS s.data with
  | some (dt, []) => if validDate dt then some dt else none
  | _ => none

/-- The `TimeZone` value object: a (trimmed) name and a signed hour/minute
offset.  Equality is structural, as in `TimeZone.__eq__`. -/
structure TimeZone where
  name : String
  offset_hours : Int
  offset_minutes : Int
deriving DecidableEq, Repr

/-- The stored `timedelta(hours=offset_hours, minutes=offset_minutes)`,
as a signed number of seconds. -/
def TimeZone.offsetSeconds (tz : TimeZone) : Int :=
  tz.offset_hours * 3600 + tz.offset_minutes * 60

/-- `TimeZone.__init__`: name must be present and non-blank, both offsets
must be `Integral`, minutes within `[-59, 59]`, and the combined offset
within `[-12:00, +14:00]` (checks in source order). -/
def TimeZone.init (name : Option String) (offset_hours offset_minutes : PyVal) :
    Except PyError TimeZone :=
  match name with
  | none => .error (.valueError "TimeZone name cannot be empty.")
  | some s =>
    if pyStrip s = "" then .error (.valueError "TimeZone name cannot be empty.")
    else
      match offset_hours with
      | .int h =>
        match offset_minutes with
        | .int m =>
          if m < -59 ∨ 59 < m then
            .error (.valueError "Minutes offset must be between -59 and 59 (inclusive).")
          else if h * 60 + m < -720 ∨ 840 < h * 60 + m then
            .error (.valueError "Offset must be between -12:00 and +14:00.")
          else .ok ⟨pyStrip s, h, m⟩
        | _ => .error (.valueError "Minute offset must be an integer")
      | _ => .error (.valueError "Hour offset must be an integer")

/-- The `TimeZone('UTC', 0, 0)` default. -/
def utcTZ : TimeZone := ⟨"UTC", 0, 0⟩

/-- The `Confirmation` namedtuple returned by `parse_confirmation_code`:
`account_number transaction_code transaction_id time_utc time`. -/
structure Confirmation where
  account_number : String
  transaction_code : String
  transaction_id : String
  time_utc : String
  time : String
deriving DecidableEq, Repr

/-- The payload of a `Transaction_Code` enum member: the first three members
are written with a trailing comma, so their `value` is a one-element tuple;
`REJECTED` has a plain string `value`. -/
inductive EnumVal where
  | tup (s : String)
  | str (s : String)
deriving DecidableEq, Repr

/-- `value[0]`: the element of a one-tuple, or the first character of a
string. -/
def EnumVal.elem0 : EnumVal → String
  | .tup s => s
  | .str s => s.take 1

/-- `Transaction_Code[name]`: `Enum` lookup by member name; `none` models the
`KeyError` raised for an unknown name. -/
def Transaction_Code (name : String) : Option EnumVal :=
  if name = "DEPOSIT" then some (.tup "D")
  else if name = "WITHDRAW" then some (.tup "W")
  else if name = "INTEREST" then some (.tup "I")
  else if name = "REJECTED" then some (.str "X")
  else none

/-- The single-character tag of a recognized transaction kind
(`Transaction_Code[k].value[0]`); `""` for an unrecognized kind. -/
def tag_of_kind (k : String) : String :=
  match Transaction_Code k with
  | some v => v.elem0
  | none => ""

/-- One draw from `itertools.count` in state `s`: yield `s`, advance to
`s + 1`.  `Account.transaction_counter = itertools.count(100)` starts at
`s = 100`. -/
def countNext (s : Nat) : Nat × Nat := (s, s + 1)

/-- The values and final state of `n` successive draws from the counter. -/
def drawsAux : Nat → Nat → List Nat × Nat
  | s, 0 => ([], s)
  | s, n + 1 =>
    let (v, s1) := countNext s
    let (vs, sF) := drawsAux s1 n
    (v :: vs, sF)

/-- The values of `n` successive draws from the counter started at `s`. -/
def draws (s n : Nat) : List Nat := (drawsAux s n).1

/-- The mutable per-account state of an `Account` object, together with the
immutable account number.  The class-wide interest rate and the shared
transaction counter live outside this structure (they are process-wide). -/
structure AccountState where
  account_number : Nat
  first_name : String
  last_name : String
  balance : ℚ
  timezone : TimeZone
deriving DecidableEq, Repr

/-- `Account.validate_real_number`: the value must be `numbers.Real`, and at
least `min_value` when one is given. -/
def validate_real_number (value : PyVal) (field_title : String)
    (min_value : Option ℚ) : Except PyError ℚ :=
  match value.toReal with
  | none => .error (.valueError (field_title ++ " value must be a real number."))
  | some q =>
    match min_value with
    | some m =>
      if q < m then .error (.valueError (field_title ++ " value must at least " ++ toString m ++ "."))
      else .ok q
    | none => .ok q

/-- `Account.validate_and_set_name`: the value must be present and
non-blank; the raw (untrimmed) value is stored. -/
def validate_and_set_name (value : Option String) (field_title : String) :
    Except PyError String :=
  match value with
  | none => .error (.valueError (field_title ++ " cannot be empty."))
  | some s =>
    if pyStrip s = "" then .error (.valueError (field_title ++ " cannot be empty."))
    else .ok s

/-- `Account.__init__`: non-negative account number (the `Integral` type
check is carried by the `Int` argument type), non-blank names, initial
balance at least `0.01`, timezone defaulting to UTC+0. -/
def Account.init (account_number : Int) (first_name last_name : Option String)
    (initial_balance : PyVal) (timezone : Option TimeZone) :
    Except PyError AccountState :=
  if account_number < 0 then
    .error (.valueError "account_number cannot be negative numbers.")
  else
    match validate_and_set_name first_name "first_name" with
    | .error e => .error e
    | .ok fn =>
      match validate_and_set_name last_name "last_name" with
      | .error e => .error e
      | .ok ln =>
        match validate_real_number initial_balance "balance" (some (1/100)) with
        | .error e => .error e
        | .ok bal => .ok ⟨account_number.toNat, fn, ln, bal, timezone.getD utcTZ⟩

/-- `Account.generation_confirmation_code`: format the clock reading, look
the kind up in the enum (a `KeyError` leaves the counter untouched, since
the f-string draws from the counter only after the lookup), then join
`tag-account-timestamp-sequenceId` and advance the shared counter. -/
def generation_confirmation_code (account_number : Nat) (dt : DT)
    (transaction_code : String) (ctr : Nat) : Except PyError String × Nat :=
  let dt_str := fmtDT dt
  match Transaction_Code transaction_code with
  | none => (.error (.keyError transaction_code), ctr)
  | some v =>
    let (seqId, ctr2) := countNext ctr
    (.ok (v.elem0 ++ "-" ++ natDecimal account_number ++ "-" ++ dt_str ++ "-" ++ natDecimal seqId), ctr2)

/-- `Account.parse_confirmation_code`: split on `-` into exactly four parts,
parse the timestamp with the (lenient) `%Y%m%d%H%M%S` format, then render
the UTC time in ISO-8601 form and the display-timezone time as
`YYYYMMDDHHMMSS (name)`; the non-timestamp parts are returned verbatim. -/
def parse_confirmation_code (confirmation_code : String)
    (preferred_time_zone : Option TimeZone) : Except PyError Confirmation :=
  match splitDash confirmation_code.data with
  | [transaction_code, account_number, raw_dt_utc, transaction_id] =>
    match strptimeYmdHMS (String.mk raw_dt_utc) with
    | none => .error (.valueError "Invalid transaction datetime.")
    | some dt_utc =>
      let tz := preferred_time_zone.getD utcTZ
      let dt_preferred := addSeconds dt_utc tz.offsetSeconds
      .ok ⟨String.mk account_number, String.mk transaction_code,
           String.mk transaction_id, isoformatDT dt_utc,
           fmtDT dt_preferred ++ " (" ++ tz.name ++ ")"⟩
  | _ => .error (.valueError "Invalid confirmation code")

/-- `Account.deposit`: validate the amount (at least `0.01`), generate a
DEPOSIT confirmation code, then add the amount to the balance.  The result
carries the post-call account state and counter state (unchanged when the
validation raises, since the raise precedes every mutation). -/
def deposit (st : AccountState) (dt : DT) (ctr : Nat) (value : PyVal) :
    Except PyError String × AccountState × Nat :=
  match validate_real_number value "deposit" (some (1/100)) with
  | .error e => (.error e, st, ctr)
  | .ok v =>
    match generation_confirmation_code st.account_number dt "DEPOSIT" ctr with
    | (.ok code, ctr2) => (.ok code, { st with balance := st.balance + v }, ctr2)
    | (.error e, ctr2) => (.error e, st, ctr2)

/-- `Account.withdraw`: validate the amount (at least `0.01`); an amount
above the balance yields a REJECTED code with the balance untouched (a
normal return, not a raise), otherwise the balance decreases and a
WITHDRAW code is returned.  Both outcomes consume one counter draw. -/
def withdraw (st : AccountState) (dt : DT) (ctr : Nat) (value : PyVal) :
    Except PyError String × AccountState × Nat :=
  match validate_real_number value "withdraw" (some (1/100)) with
  | .error e => (.error e, st, ctr)
  | .ok v =>
    if st.balance < v then
      match generation_confirmation_code st.account_number dt "REJECTED" ctr with
      | (.ok code, ctr2) => (.ok code, st, ctr2)
      | (.error e, ctr2) => (.error e, st, ctr2)
    else
      match generation_confirmation_code st.account_number dt "WITHDRAW" ctr with
      | (.ok code, ctr2) => (.ok code, { st with balance := st.balance - v }, ctr2)
      | (.error e, ctr2) => (.error e, st, ctr2)

/-- `Account.pay_interest`: add `balance * rate / 100` to the balance (using
the class-wide rate passed in) and return an INTEREST code. -/
def pay_interest (st : AccountState) (rate : ℚ) (dt : DT) (ctr : Nat) :
    Except PyError String × AccountState × Nat :=
  let interest := st.balance * rate / 100
  match generation_confirmation_code st.account_number dt "INTEREST" ctr with
  | (.ok code, ctr2) => (.ok code, { st with balance := st.balance + interest }, ctr2)
  | (.error e, ctr2) => (.error e, st, ctr2)

/-- `Account.set_interest_rate`: the class-wide rate must be a non-negative
real; on success the new shared rate is returned. -/
def set_interest_rate (value : PyVal) : Except PyError ℚ :=
  match value.toReal with
  | none => .error (.valueError "interest rate must be real number.")
  | some q =>
    if q < 0 then .error (.valueError "interest rate cannot be negative.")
    else .ok q

/-- One account operation of a run (each carries its own clock reading). -/
inductive AccountOp where
  | dep (dt : DT) (v : PyVal)
  | wd (dt : DT) (v : PyVal)
  | interest (dt : DT)
  | setRate (v : PyVal)

/-- The process-wide configuration: the account, the class-wide interest
rate, and the shared transaction-counter state. -/
structure Config where
  st : AccountState
  rate : ℚ
  ctr : Nat

/-- Apply one operation; a raised validation error leaves every component
unchanged (the raises occur before any mutation in the source). -/
def stepOp (cfg : Config) : AccountOp → Config
  | .dep dt v =>
    let r := deposit cfg.st dt cfg.ctr v
    ⟨r.2.1, cfg.rate, r.2.2⟩
  | .wd dt v =>
    let r := withdraw cfg.st dt cfg.ctr v
    ⟨r.2.1, cfg.rate, r.2.2⟩
  | .interest dt =>
    let r := pay_interest cfg.st cfg.rate dt cfg.ctr
    ⟨r.2.1, cfg.rate, r.2.2⟩
  | .setRate v =>
    match set_interest_rate v with
    | .ok r => ⟨cfg.st, r, cfg.ctr⟩
    | .error _ => cfg

/-- Run a sequence of operations. -/
def runOps (cfg : Config) (ops : List AccountOp) : Config :=
  ops.foldl stepOp cfg

/-! ### Basic character and string facts -/

theorem digitChar_ne_dash (n : Nat) : Nat.digitChar n ≠ '-' := by
  rcases Nat.lt_or_ge n 16 with h | h
  · interval_cases n <;> decide
  · have he : Nat.digitChar n = '*' := by
      unfold Nat.digitChar
      repeat rw [if_neg (by omega)]
    rw [he]; decide

theorem digitChar_isDigit (d : Nat) (h : d < 10) :
    (Nat.digitChar d).isDigit = true := by
  interval_cases d <;> decide

theorem digitChar_toNat (d : Nat) (h : d < 10) :
    (Nat.digitChar d).toNat = 48 + d := by
  interval_cases d <;> decide

theorem dash_not_mem_natDigits (n : Nat) : '-' ∉ natDigits n := by
  induction n using natDigits.induct with
  | case1 n h =>
    rw [natDigits, dif_pos h]
    intro hm
    rcases List.mem_singleton.mp hm with h2
    exact digitChar_ne_dash n h2.symm
  | case2 n h ih =>
    rw [natDigits, dif_neg h]
    intro hm
    rcases List.mem_append.mp hm with h2 | h2
    · exact ih h2
    · exact digitChar_ne_dash (n % 10) (List.mem_singleton.mp h2).symm

theorem dash_not_mem_pad2 (n : Nat) : '-' ∉ pad2 n := by
  intro hm
  simp only [pad2, List.mem_cons, List.not_mem_nil, or_false] at hm
  rcases hm with h | h
  all_goals exact digitChar_ne_dash _ h.symm

theorem dash_not_mem_pad4 (n : Nat) : '-' ∉ pad4 n := by
  intro hm
  simp only [pad4, List.mem_cons, List.not_mem_nil, or_false] at hm
  rcases hm with h | h | h | h
  all_goals exact digitChar_ne_dash _ h.symm

theorem dash_not_mem_fmtDT (dt : DT) : '-' ∉ (fmtDT dt).data := by
  intro hm
  simp only [fmtDT, List.mem_append] at hm
  rcases hm with ((((h | h) | h) | h) | h) | h
  · exact dash_not_mem_pad4 _ h
  all_goals exact dash_not_mem_pad2 _ h

theorem string_data_append (a b : String) : (a ++ b).data = a.data ++ b.data := rfl

theorem string_mk_data (s : String) : String.mk s.data = s := rfl

/-! ### `split('-')` facts -/

theorem splitDash_no_dash (a : List Char) (h : '-' ∉ a) : splitDash a = [a] := by
  induction a with
  | nil => rfl
  | cons c rest ih =>
    have hc : c ≠ '-' := fun hc => h (hc ▸ List.mem_cons_self c rest)
    have hr : '-' ∉ rest := fun hr => h (List.mem_cons_of_mem c hr)
    rw [splitDash, if_neg hc, ih hr]

theorem splitDash_append (a rest : List Char) (h : '-' ∉ a) :
    splitDash (a ++ '-' :: rest) = a :: splitDash rest := by
  induction a with
  | nil => simp [splitDash]
  | cons c tl ih =>
    have hc : c ≠ '-' := fun hc => h (hc ▸ List.mem_cons_self c tl)
    have ht : '-' ∉ tl := fun hr => h (List.mem_cons_of_mem c hr)
    rw [List.cons_append, splitDash, if_neg hc, ih ht]

theorem splitDash_four (p0 p1 p2 p3 : List Char)
    (h0 : '-' ∉ p0) (h1 : '-' ∉ p1) (h2 : '-' ∉ p2) (h3 : '-' ∉ p3) :
    splitDash (p0 ++ '-' :: (p1 ++ '-' :: (p2 ++ '-' :: p3))) = [p0, p1, p2, p3] := by
  rw [splitDash_append _ _ h0, splitDash_append _ _ h1, splitDash_append _ _ h2,
      splitDash_no_dash _ h3]

/-! ### `strptime` matcher facts on well-formed (zero-padded) fields -/

theorem runAlts_cons_some {α : Type} {a : StrpAlt} {tl : List StrpAlt}
    {s s1 : List Char} {k : Nat → List Char → Option α} {v : Nat} {r : α}
    (ha : a s = some (v, s1)) (hk : k v s1 = some r) :
    runAlts (a :: tl) s k = some r := by
  unfold runAlts
  rw [ha]
  dsimp only
  rw [hk]

theorem runAlts_cons_none {α : Type} {a : StrpAlt} {tl : List StrpAlt}
    {s : List Char} {k : Nat → List Char → Option α}
    (ha : a s = none) :
    runAlts (a :: tl) s k = runAlts tl s k := by
  conv_lhs => rw [runAlts]
  rw [ha]

theorem twoDigitN_pad2_some (lo1 hi1 lo2 hi2 n : Nat) (hn : n ≤ 99)
    (h1 : lo1 ≤ n / 10) (h2 : n / 10 ≤ hi1) (h3 : lo2 ≤ n % 10) (h4 : n % 10 ≤ hi2)
    (rest : List Char) :
    twoDigitN lo1 hi1 lo2 hi2 (pad2 n ++ rest) = some (n, rest) := by
  have d1 : n / 10 < 10 := by omega
  have d2 : n % 10 < 10 := by omega
  simp only [twoDigitN, pad2, List.cons_append, List.nil_append]
  rw [if_pos]
  · have hx : 10 * ((Nat.digitChar (n / 10)).toNat - 48) + ((Nat.digitChar (n % 10)).toNat - 48) = n := by
      rw [digitChar_toNat _ d1, digitChar_toNat _ d2]
      omega
    rw [hx]
  · refine ⟨digitChar_isDigit _ d1, ?_, ?_, digitChar_isDigit _ d2, ?_, ?_⟩
    · rw [digitChar_toNat _ d1]; omega
    · rw [digitChar_toNat _ d1]; omega
    · rw [digitChar_toNat _ d2]; omega
    · rw [digitChar_toNat _ d2]; omega

theorem twoDigitN_pad2_none (lo1 hi1 lo2 hi2 n : Nat) (hn : n ≤ 99)
    (h : n / 10 < lo1 ∨ hi1 < n / 10 ∨ n % 10 < lo2 ∨ hi2 < n % 10)
    (rest : List Char) :
    twoDigitN lo1 hi1 lo2 hi2 (pad2 n ++ rest) = none := by
  have d1 : n / 10 < 10 := by omega
  have d2 : n % 10 < 10 := by omega
  simp only [twoDigitN, pad2, List.cons_append, List.nil_append]
  rw [if_neg]
  rintro ⟨-, ha, hb, -, hc, hd⟩
  rw [digitChar_toNat _ d1] at ha hb
  rw [digitChar_toNat _ d2] at hc hd
  omega

theorem month_match {α : Type} (mo : Nat) (hlo : 1 ≤ mo) (hhi : mo ≤ 12)
    (rest : List Char) (k : Nat → List Char → Option α) (r : α)
    (hk : k mo rest = some r) :
    runAlts monthAlts (pad2 mo ++ rest) k = some r := by
  unfold monthAlts
  rcases Nat.lt_or_ge mo 10 with h | h
  · rw [runAlts_cons_none (twoDigitN_pad2_none 1 1 0 2 mo (by omega) (by omega) rest)]
    exact runAlts_cons_some
      (twoDigitN_pad2_some 0 0 1 9 mo (by omega) (by omega) (by omega) (by omega) (by omega) rest) hk
  · exact runAlts_cons_some
      (twoDigitN_pad2_some 1 1 0 2 mo (by omega) (by omega) (by omega) (by omega) (by omega) rest) hk

theorem day_match {α : Type} (da : Nat) (hlo : 1 ≤ da) (hhi : da ≤ 31)
    (rest : List Char) (k : Nat → List Char → Option α) (r : α)
    (hk : k da rest = some r) :
    runAlts dayAlts (pad2 da ++ rest) k = some r := by
  unfold dayAlts
  rcases Nat.lt_or_ge da 10 with h | h
  · rw [runAlts_cons_none (twoDigitN_pad2_none 3 3 0 1 da (by omega) (by omega) rest),
        runAlts_cons_none (twoDigitN_pad2_none 1 2 0 9 da (by omega) (by omega) rest)]
    exact runAlts_cons_some
      (twoDigitN_pad2_some 0 0 1 9 da (by omega) (by omega) (by omega) (by omega) (by omega) rest) hk
  · rcases Nat.lt_or_ge da 30 with h2 | h2
    · rw [runAlts_cons_none (twoDigitN_pad2_none 3 3 0 1 da (by omega) (by omega) rest)]
      exact runAlts_cons_some
        (twoDigitN_pad2_some 1 2 0 9 da (by omega) (by omega) (by omega) (by omega) (by omega) rest) hk
    · exact runAlts_cons_some
        (twoDigitN_pad2_some 3 3 0 1 da (by omega) (by omega) (by omega) (by omega) (by omega) rest) hk

theorem hour_match {α : Type} (hh : Nat) (hhi : hh ≤ 23)
    (rest : List Char) (k : Nat → List Char → Option α) (r : α)
    (hk : k hh rest = some r) :
    runAlts hourAlts (pad2 hh ++ rest) k = some r := by
  unfold hourAlts
  rcases Nat.lt_or_ge hh 20 with h | h
  · rw [runAlts_cons_none (twoDigitN_pad2_none 2 2 0 3 hh (by omega) (by omega) rest)]
    exact runAlts_cons_some
      (twoDigitN_pad2_some 0 1 0 9 hh (by omega) (by omega) (by omega) (by omega) (by omega) rest) hk
  · exact runAlts_cons_some
      (twoDigitN_pad2_some 2 2 0 3 hh (by omega) (by omega) (by omega) (by omega) (by omega) rest) hk

theorem minute_match {α : Type} (mi : Nat) (hhi : mi ≤ 59)
    (rest : List Char) (k : Nat → List Char → Option α) (r : α)
    (hk : k mi rest = some r) :
    runAlts minuteAlts (pad2 mi ++ rest) k = some r := by
  unfold minuteAlts
  exact runAlts_cons_some
    (twoDigitN_pad2_some 0 5 0 9 mi (by omega) (by omega) (by omega) (by omega) (by omega) rest) hk

theorem second_match {α : Type} (se : Nat) (hhi : se ≤ 59)
    (k : Nat → List Char → Option α) (r : α)
    (hk : k se [] = some r) :
    runAlts secondAlts (pad2 se) k = some r := by
  unfold secondAlts
  rw [← List.append_nil (pad2 se)]
  rw [runAlts_cons_none (twoDigitN_pad2_none 6 6 0 1 se (by omega) (by omega) [])]
  exact runAlts_cons_some
    (twoDigitN_pad2_some 0 5 0 9 se (by omega) (by omega) (by omega) (by omega) (by omega) []) hk

theorem daysInMonth_le (y m : Nat) : daysInMonth y m ≤ 31 := by
  unfold daysInMonth
  repeat' split
  all_goals omega

theorem matchYmdHMS_fmt (dt : DT) (h : validDate dt) :
    matchYmdHMS (fmtDT dt).data = some (dt, []) := by
  obtain ⟨y, mo, da, hh, mi, se⟩ := dt
  unfold validDate at h
  dsimp only at h
  obtain ⟨hy1, hy2, hm1, hm2, hd1, hd2, hh1, hmi1, hse1⟩ := h
  have hda : da ≤ 31 := le_trans hd2 (daysInMonth_le y mo)
  have hdata : (fmtDT ⟨y, mo, da, hh, mi, se⟩).data =
      Nat.digitChar (y / 1000) :: Nat.digitChar (y / 100 % 10) ::
      Nat.digitChar (y / 10 % 10) :: Nat.digitChar (y % 10) ::
      (pad2 mo ++ (pad2 da ++ (pad2 hh ++ (pad2 mi ++ pad2 se)))) := by
    simp [fmtDT, pad4, List.append_assoc]
  rw [hdata]
  have hY : 1000 * ((Nat.digitChar (y / 1000)).toNat - 48) +
      100 * ((Nat.digitChar (y / 100 % 10)).toNat - 48) +
      10 * ((Nat.digitChar (y / 10 % 10)).toNat - 48) +
      ((Nat.digitChar (y % 10)).toNat - 48) = y := by
    rw [digitChar_toNat _ (by omega), digitChar_toNat _ (by omega),
        digitChar_toNat _ (by omega), digitChar_toNat _ (by omega)]
    omega
  unfold matchYmdHMS
  dsimp only
  rw [if_pos ⟨digitChar_isDigit _ (by omega), digitChar_isDigit _ (by omega),
      digitChar_isDigit _ (by omega), digitChar_isDigit _ (by omega)⟩]
  exact month_match mo hm1 hm2 _ _ _
    (day_match da hd1 hda _ _ _
      (hour_match hh hh1 _ _ _
        (minute_match mi hmi1 _ _ _
          (second_match se hse1 _ _ (by rw [hY])))))

theorem strptime_fmt (dt : DT) (h : validDate dt) :
    strptimeYmdHMS (fmtDT dt) = some dt := by
  unfold strptimeYmdHMS
  rw [matchYmdHMS_fmt dt h]
  dsimp only
  rw [if_pos h]

/-! ### Codec composition facts -/

theorem string_data_mk (l : List Char) : (String.mk l).data = l := rfl

theorem dash_data : ("-" : String).data = ['-'] := rfl

theorem code_data (t a f s : String) :
    (t ++ "-" ++ a ++ "-" ++ f ++ "-" ++ s).data =
      t.data ++ '-' :: (a.data ++ '-' :: (f.data ++ '-' :: s.data)) := by
  simp [string_data_append, dash_data, List.append_assoc]

/-- `generation_confirmation_code` on a recognized kind: one counter draw is
consumed and the code is the dash-joined quadruple. -/
theorem gen_ok (acct : Nat) (dt : DT) (kind : String) (v : EnumVal)
    (hv : Transaction_Code kind = some v) (ctr : Nat) :
    generation_confirmation_code acct dt kind ctr =
      (.ok (v.elem0 ++ "-" ++ natDecimal acct ++ "-" ++ fmtDT dt ++ "-" ++ natDecimal ctr),
       ctr + 1) := by
  unfold generation_confirmation_code countNext
  rw [hv]

/-- `parse_confirmation_code` on a four-part code whose third part is a
well-formed timestamp: the non-timestamp parts come back verbatim. -/
theorem parse_ok_parts (s : String) (p0 p1 p3 : List Char) (dt : DT)
    (ptz : Option TimeZone)
    (hs : s.data = p0 ++ '-' :: (p1 ++ '-' :: ((fmtDT dt).data ++ '-' :: p3)))
    (h0 : '-' ∉ p0) (h1 : '-' ∉ p1) (h3 : '-' ∉ p3) (hdt : validDate dt) :
    parse_confirmation_code s ptz =
      .ok ⟨String.mk p1, String.mk p0, String.mk p3, isoformatDT dt,
           fmtDT (addSeconds dt (ptz.getD utcTZ).offsetSeconds) ++ " (" ++
             (ptz.getD utcTZ).name ++ ")"⟩ := by
  unfold parse_confirmation_code
  rw [hs, splitDash_four p0 p1 (fmtDT dt).data p3 h0 h1 (dash_not_mem_fmtDT dt) h3]
  dsimp only
  rw [string_mk_data, strptime_fmt dt hdt]

/-! ### Shared transaction counter facts -/

theorem drawsAux_spec (s n : Nat) : drawsAux s n = (List.range' s n, s + n) := by
  induction n generalizing s with
  | zero => simp [drawsAux]
  | succ n ih =>
    rw [drawsAux]
    dsimp only [countNext]
    rw [ih (s + 1), List.range'_succ s n 1]
    have : s + 1 + n = s + (n + 1) := by omega
    rw [this]

theorem draws_eq_range (s n : Nat) : draws s n = List.range' s n := by
  unfold draws
  rw [drawsAux_spec]

theorem draws_length (s n : Nat) : (draws s n).length = n := by
  rw [draws_eq_range]
  exact List.length_range' ..

theorem draws_get (s n i : Nat) (h : i < (draws s n).length) :
    (draws s n).get ⟨i, h⟩ = s + i := by
  have h2 : i < (List.range' s n).length := by
    rw [← draws_eq_range]; exact h
  rw [List.get_eq_getElem]
  have : (draws s n)[i] = (List.range' s n)[i] := by
    congr 1
    exact draws_eq_range s n
  rw [this, List.getElem_range']
  omega

/-! ### String equality via character data, and tag splitting -/

theorem string_eq_of_data {x y : String} (h : x.data = y.data) : x = y := by
  cases x
  cases y
  cases h
  rfl

theorem tag_split (x y a f s : String) (hxy : x ++ "-" = y) :
    x ++ "-" ++ a ++ "-" ++ f ++ "-" ++ s = y ++ (a ++ "-" ++ f ++ "-" ++ s) := by
  subst hxy
  apply string_eq_of_data
  simp [string_data_append, List.append_assoc]

/-! ### Validation and operation equations -/

theorem validate_some (pv : PyVal) (t : String) (m v : ℚ)
    (hpv : pv.toReal = some v) (hv : ¬ v < m) :
    validate_real_number pv t (some m) = .ok v := by
  unfold validate_real_number
  rw [hpv]
  dsimp only
  rw [if_neg hv]

theorem validate_below (pv : PyVal) (t : String) (m v : ℚ)
    (hpv : pv.toReal = some v) (hv : v < m) :
    validate_real_number pv t (some m) =
      .error (.valueError (t ++ " value must at least " ++ toString m ++ ".")) := by
  unfold validate_real_number
  rw [hpv]
  dsimp only
  rw [if_pos hv]

theorem validate_nonreal (pv : PyVal) (t : String) (mo : Option ℚ)
    (hpv : pv.toReal = none) :
    validate_real_number pv t mo =
      .error (.valueError (t ++ " value must be a real number.")) := by
  unfold validate_real_number
  rw [hpv]

theorem deposit_err (st : AccountState) (dt : DT) (ctr : Nat) (pv : PyVal)
    (e : PyError) (hv : validate_real_number pv "deposit" (some (1/100)) = .error e) :
    deposit st dt ctr pv = (.error e, st, ctr) := by
  unfold deposit
  rw [hv]

theorem deposit_ok (st : AccountState) (dt : DT) (ctr : Nat) (pv : PyVal) (v : ℚ)
    (hpv : pv.toReal = some v) (hv : ¬ v < 1/100) :
    deposit st dt ctr pv =
      (.ok ("D-" ++ (natDecimal st.account_number ++ "-" ++ fmtDT dt ++ "-" ++ natDecimal ctr)),
       { st with balance := st.balance + v }, ctr + 1) := by
  unfold deposit
  rw [validate_some pv "deposit" (1/100) v hpv hv]
  dsimp only
  rw [gen_ok st.account_number dt "DEPOSIT" (.tup "D") rfl ctr]
  dsimp only [EnumVal.elem0]
  rw [tag_split "D" "D-" _ _ _ (by decide)]

theorem withdraw_err (st : AccountState) (dt : DT) (ctr : Nat) (pv : PyVal)
    (e : PyError) (hv : validate_real_number pv "withdraw" (some (1/100)) = .error e) :
    withdraw st dt ctr pv = (.error e, st, ctr) := by
  unfold withdraw
  rw [hv]

theorem withdraw_rejected (st : AccountState) (dt : DT) (ctr : Nat) (pv : PyVal) (v : ℚ)
    (hpv : pv.toReal = some v) (hv : ¬ v < 1/100) (hb : st.balance < v) :
    withdraw st dt ctr pv =
      (.ok ("X-" ++ (natDecimal st.account_number ++ "-" ++ fmtDT dt ++ "-" ++ natDecimal ctr)),
       st, ctr + 1) := by
  unfold withdraw
  rw [validate_some pv "withdraw" (1/100) v hpv hv]
  dsimp only
  rw [if_pos hb]
  rw [gen_ok st.account_number dt "REJECTED" (.str "X") rfl ctr]
  dsimp only [EnumVal.elem0]
  rw [show ("X".take 1 : String) = "X" from by decide]
  rw [tag_split "X" "X-" _ _ _ (by decide)]

theorem withdraw_accepted (st : AccountState) (dt : DT) (ctr : Nat) (pv : PyVal) (v : ℚ)
    (hpv : pv.toReal = some v) (hv : ¬ v < 1/100) (hb : ¬ st.balance < v) :
    withdraw st dt ctr pv =
      (.ok ("W-" ++ (natDecimal st.account_number ++ "-" ++ fmtDT dt ++ "-" ++ natDecimal ctr)),
       { st with balance := st.balance - v }, ctr + 1) := by
  unfold withdraw
  rw [validate_some pv "withdraw" (1/100) v hpv hv]
  dsimp only
  rw [if_neg hb]
  rw [gen_ok st.account_number dt "WITHDRAW" (.tup "W") rfl ctr]
  dsimp only [EnumVal.elem0]
  rw [tag_split "W" "W-" _ _ _ (by decide)]

theorem pay_interest_eq (st : AccountState) (rate : ℚ) (dt : DT) (ctr : Nat) :
    pay_interest st rate dt ctr =
      (.ok ("I-" ++ (natDecimal st.account_number ++ "-" ++ fmtDT dt ++ "-" ++ natDecimal ctr)),
       { st with balance := st.balance + st.balance * rate / 100 }, ctr + 1) := by
  unfold pay_interest
  rw [gen_ok st.account_number dt "INTEREST" (.tup "I") rfl ctr]
  dsimp only [EnumVal.elem0]
  rw [tag_split "I" "I-" _ _ _ (by decide)]

/-! ### Invariant support -/

theorem validate_ok_ge (pv : PyVal) (t : String) (m q : ℚ)
    (h : validate_real_number pv t (some m) = .ok q) : m ≤ q := by
  unfold validate_real_number at h
  cases hr : pv.toReal with
  | none => rw [hr] at h; cases h
  | some v =>
    rw [hr] at h
    dsimp only at h
    by_cases hv : v < m
    · rw [if_pos hv] at h; cases h
    · rw [if_neg hv] at h
      injection h with h2
      subst h2
      exact not_lt.mp hv

theorem set_rate_nonneg (v : PyVal) (r : ℚ) (h : set_interest_rate v = .ok r) :
    0 ≤ r := by
  unfold set_interest_rate at h
  cases hr : v.toReal with
  | none => rw [hr] at h; cases h
  | some q =>
    rw [hr] at h
    dsimp only at h
    by_cases hq : q < 0
    · rw [if_pos hq] at h; cases h
    · rw [if_neg hq] at h
      injection h with h2
      subst h2
      exact not_lt.mp hq

theorem init_balance (an : Int) (fn ln : Option String) (ib : PyVal)
    (tz : Option TimeZone) (st : AccountState)
    (h : Account.init an fn ln ib tz = .ok st) : 1/100 ≤ st.balance := by
  unfold Account.init at h
  by_cases hn : an < 0
  · rw [if_pos hn] at h; cases h
  · rw [if_neg hn] at h
    cases hfn : validate_and_set_name fn "first_name" with
    | error e => rw [hfn] at h; cases h
    | ok fnv =>
      rw [hfn] at h
      dsimp only at h
      cases hln : validate_and_set_name ln "last_name" with
      | error e => rw [hln] at h; cases h
      | ok lnv =>
        rw [hln] at h
        dsimp only at h
        cases hb : validate_real_number ib "balance" (some (1/100)) with
        | error e => rw [hb] at h; cases h
        | ok bal =>
          rw [hb] at h
          dsimp only at h
          injection h with h2
          subst h2
          exact validate_ok_ge ib "balance" (1/100) bal hb

theorem stepOp_preserves (cfg : Config) (op : AccountOp)
    (hb : 0 ≤ cfg.st.balance) (hr : 0 ≤ cfg.rate) :
    0 ≤ (stepOp cfg op).st.balance ∧ 0 ≤ (stepOp cfg op).rate := by
  cases op with
  | dep dt v =>
    unfold stepOp
    dsimp only
    cases hto : v.toReal with
    | none =>
      rw [deposit_err _ _ _ _ _ (validate_nonreal v "deposit" _ hto)]
      exact ⟨hb, hr⟩
    | some q =>
      by_cases hq : q < 1/100
      · rw [deposit_err _ _ _ _ _ (validate_below v "deposit" _ q hto hq)]
        exact ⟨hb, hr⟩
      · rw [deposit_ok _ _ _ _ q hto hq]
        refine ⟨?_, hr⟩
        have : (0 : ℚ) ≤ q := by
          rw [not_lt] at hq
          linarith
        dsimp only
        linarith
  | wd dt v =>
    unfold stepOp
    dsimp only
    cases hto : v.toReal with
    | none =>
      rw [withdraw_err _ _ _ _ _ (validate_nonreal v "withdraw" _ hto)]
      exact ⟨hb, hr⟩
    | some q =>
      by_cases hq : q < 1/100
      · rw [withdraw_err _ _ _ _ _ (validate_below v "withdraw" _ q hto hq)]
        exact ⟨hb, hr⟩
      · by_cases hbal : cfg.st.balance < q
        · rw [withdraw_rejected _ _ _ _ q hto hq hbal]
          exact ⟨hb, hr⟩
        · rw [withdraw_accepted _ _ _ _ q hto hq hbal]
          refine ⟨?_, hr⟩
          rw [not_lt] at hbal
          dsimp only
          linarith
  | interest dt =>
    unfold stepOp
    dsimp only
    rw [pay_interest_eq]
    refine ⟨?_, hr⟩
    have h1 : (0 : ℚ) ≤ cfg.st.balance * cfg.rate := mul_nonneg hb hr
    have h2 : (0 : ℚ) ≤ cfg.st.balance * cfg.rate / 100 := by positivity
    dsimp only
    linarith
  | setRate v =>
    unfold stepOp
    dsimp only
    cases hsr : set_interest_rate v with
    | error e => exact ⟨hb, hr⟩
    | ok r2 => exact ⟨hb, set_rate_nonneg v r2 hsr⟩

theorem runOps_preserves (ops : List AccountOp) (cfg : Config)
    (hb : 0 ≤ cfg.st.balance) (hr : 0 ≤ cfg.rate) :
    0 ≤ (runOps cfg ops).st.balance ∧ 0 ≤ (runOps cfg ops).rate := by
  induction ops generalizing cfg with
  | nil => exact ⟨hb, hr⟩
  | cons op tl ih =>
    have h := stepOp_preserves cfg op hb hr
    exact ih (stepOp cfg op) h.1 h.2

theorem Transaction_Code_none (k : String) (h1 : k ≠ "DEPOSIT") (h2 : k ≠ "WITHDRAW")
    (h3 : k ≠ "INTEREST") (h4 : k ≠ "REJECTED") : Transaction_Code k = none := by
  unfold Transaction_Code
  rw [if_neg h1, if_neg h2, if_neg h3, if_neg h4]

/-! ### Claim theorems -/

/-- C1: for every valid account (non-negative integer account number,
modelled by `Nat`), every recognized transaction kind, every clock reading
the program can observe, and every counter state, the code `c` returned by
`generation_confirmation_code` parses successfully;
`(parse c).transaction_id` is the decimal rendering of the sequence id drawn
from the shared counter during generation (the pre-call counter state, which
the draw returns), and `(parse c).transaction_code` is the single-character
tag of the kind. -/
theorem C1_confirmation_code_roundtrip (acct : Nat) (kind : String)
    (hk : kind = "DEPOSIT" ∨ kind = "WITHDRAW" ∨ kind = "INTEREST" ∨ kind = "REJECTED")
    (dt : DT) (hdt : validDate dt) (ctr : Nat) (ptz : Option TimeZone) :
    ∃ code conf,
      generation_confirmation_code acct dt kind ctr = (.ok code, ctr + 1) ∧
      parse_confirmation_code code ptz = .ok conf ∧
      conf.transaction_id = natDecimal ctr ∧
      conf.transaction_code = tag_of_kind kind := by
  have hna : '-' ∉ (natDecimal acct).data := dash_not_mem_natDigits acct
  have hnc : '-' ∉ (natDecimal ctr).data := dash_not_mem_natDigits ctr
  rcases hk with h | h | h | h <;> subst h
  · exact ⟨_, _, gen_ok acct dt "DEPOSIT" (.tup "D") (by decide) ctr,
      parse_ok_parts _ _ _ _ dt ptz (code_data _ _ _ _) (by decide) hna hnc hdt, rfl, rfl⟩
  · exact ⟨_, _, gen_ok acct dt "WITHDRAW" (.tup "W") (by decide) ctr,
      parse_ok_parts _ _ _ _ dt ptz (code_data _ _ _ _) (by decide) hna hnc hdt, rfl, rfl⟩
  · exact ⟨_, _, gen_ok acct dt "INTEREST" (.tup "I") (by decide) ctr,
      parse_ok_parts _ _ _ _ dt ptz (code_data _ _ _ _) (by decide) hna hnc hdt, rfl, rfl⟩
  · exact ⟨_, _, gen_ok acct dt "REJECTED" (.str "X") (by decide) ctr,
      parse_ok_parts _ _ _ _ dt ptz (code_data _ _ _ _) (by decide) hna hnc hdt, rfl, rfl⟩

theorem C1_confirmation_code_roundtrip_witness :
    ∃ code conf,
      generation_confirmation_code 400 ⟨2020, 1, 2, 3, 4, 5⟩ "REJECTED" 100 = (.ok code, 101) ∧
      parse_confirmation_code code (some ⟨"IR", 3, 30⟩) = .ok conf ∧
      conf.transaction_id = natDecimal 100 ∧
      conf.transaction_code = tag_of_kind "REJECTED" :=
  C1_confirmation_code_roundtrip 400 "REJECTED"
    (Or.inr (Or.inr (Or.inr rfl))) ⟨2020, 1, 2, 3, 4, 5⟩ (by decide) 100 (some ⟨"IR", 3, 30⟩)

/-- C2: the values of any number of draws from the shared counter (started
at the configured start value 100) are exactly `100 + i` at position `i`:
they are strictly increasing, never repeat, begin at 100, and every draw
advances the counter state by one (`n` draws leave the state at `100 + n`). -/
theorem C2_counter_monotonic (n i j : Nat)
    (hi : i < (draws 100 n).length) (hj : j < (draws 100 n).length) (hij : i < j) :
    (draws 100 n).length = n ∧
    (draws 100 n).get ⟨i, hi⟩ = 100 + i ∧
    (draws 100 n).get ⟨j, hj⟩ = 100 + j ∧
    (draws 100 n).get ⟨i, hi⟩ < (draws 100 n).get ⟨j, hj⟩ ∧
    (draws 100 n).get ⟨i, hi⟩ ≠ (draws 100 n).get ⟨j, hj⟩ ∧
    (drawsAux 100 n).2 = 100 + n := by
  refine ⟨draws_length _ _, draws_get _ _ _ hi, draws_get _ _ _ hj, ?_, ?_, ?_⟩
  · rw [draws_get _ _ _ hi, draws_get _ _ _ hj]
    omega
  · rw [draws_get _ _ _ hi, draws_get _ _ _ hj]
    omega
  · rw [drawsAux_spec]

theorem C2_counter_monotonic_witness :
    (draws 100 3).length = 3 ∧
    (draws 100 3).get ⟨0, by decide⟩ = 100 + 0 ∧
    (draws 100 3).get ⟨2, by decide⟩ = 100 + 2 ∧
    (draws 100 3).get ⟨0, by decide⟩ < (draws 100 3).get ⟨2, by decide⟩ ∧
    (draws 100 3).get ⟨0, by decide⟩ ≠ (draws 100 3).get ⟨2, by decide⟩ ∧
    (drawsAux 100 3).2 = 100 + 3 :=
  C2_counter_monotonic 3 0 2 (by decide) (by decide) (by decide)

/-- C9: `parse_confirmation_code` validates nothing but the timestamp: any
code made of four dash-free parts whose third part is a well-formed
`YYYYMMDDHHMMSS` timestamp parses successfully, and the first, second, and
fourth parts come back verbatim as `transaction_code`, `account_number`,
and `transaction_id` — even when the tag is not one of `D`, `W`, `I`, `X`
and the account number and id are not numeric. -/
theorem C9_parse_no_field_validation (p0 p1 p3 : String) (dt : DT)
    (ptz : Option TimeZone)
    (h0 : '-' ∉ p0.data) (h1 : '-' ∉ p1.data) (h3 : '-' ∉ p3.data)
    (hdt : validDate dt) :
    ∃ conf,
      parse_confirmation_code (p0 ++ "-" ++ p1 ++ "-" ++ fmtDT dt ++ "-" ++ p3) ptz =
        .ok conf ∧
      conf.transaction_code = p0 ∧
      conf.account_number = p1 ∧
      conf.transaction_id = p3 := by
  refine ⟨_, parse_ok_parts _ p0.data p1.data p3.data dt ptz
      (code_data p0 p1 (fmtDT dt) p3) h0 h1 h3 hdt, ?_, ?_, ?_⟩
  · exact string_mk_data p0
  · exact string_mk_data p1
  · exact string_mk_data p3

theorem C9_parse_no_field_validation_witness :
    ∃ conf,
      parse_confirmation_code
        ("Q" ++ "-" ++ "abc" ++ "-" ++ fmtDT ⟨2024, 2, 29, 23, 59, 59⟩ ++ "-" ++ "id7")
        none = .ok conf ∧
      conf.transaction_code = "Q" ∧
      conf.account_number = "abc" ∧
      conf.transaction_id = "id7" :=
  C9_parse_no_field_validation "Q" "abc" "id7" ⟨2024, 2, 29, 23, 59, 59⟩ none
    (by decide) (by decide) (by decide) (by decide)

/-- C3: for every account state and numeric amount of at least 0.01, a
withdrawal above the balance returns (does not raise) a code with head
`X-` and leaves the balance unchanged, while a withdrawal of at most the
balance returns a `W-` code and decreases the balance by exactly the
amount.  Both outcomes consume one counter draw. -/
theorem C3_withdraw_accept_reject (st : AccountState) (dt : DT) (ctr : Nat)
    (pv : PyVal) (v : ℚ) (hpv : pv.toReal = some v) (hv : 1/100 ≤ v) :
    (st.balance < v →
      ∃ r, withdraw st dt ctr pv = (.ok ("X-" ++ r), st, ctr + 1)) ∧
    (v ≤ st.balance →
      ∃ r, withdraw st dt ctr pv =
        (.ok ("W-" ++ r), { st with balance := st.balance - v }, ctr + 1)) := by
  have hnv : ¬ v < 1/100 := not_lt.mpr hv
  constructor
  · intro hb
    exact ⟨_, withdraw_rejected st dt ctr pv v hpv hnv hb⟩
  · intro hb
    exact ⟨_, withdraw_accepted st dt ctr pv v hpv hnv (not_lt.mpr hb)⟩

theorem C3_withdraw_accept_reject_witness :
    ∃ r, withdraw ⟨400, "Mohammad", "Jalalnia", 100, utcTZ⟩ ⟨2020, 1, 2, 3, 4, 5⟩ 100
        (.float 200) =
      (.ok ("X-" ++ r), ⟨400, "Mohammad", "Jalalnia", 100, utcTZ⟩, 101) :=
  (C3_withdraw_accept_reject ⟨400, "Mohammad", "Jalalnia", 100, utcTZ⟩
    ⟨2020, 1, 2, 3, 4, 5⟩ 100 (.float 200) 200 rfl (by norm_num)).1 (by norm_num)

/-- C4: `deposit` fails with a `ValueError` (the spec's ValidationError) on a
non-numeric amount or an amount below 0.01, leaving the balance and the
counter untouched; on an amount of at least 0.01 it adds exactly that
amount to the balance and returns a DEPOSIT (`D-`) confirmation code. -/
theorem C4_deposit_validation (st : AccountState) (dt : DT) (ctr : Nat) (pv : PyVal) :
    (pv.toReal = none →
      ∃ msg, deposit st dt ctr pv = (.error (.valueError msg), st, ctr)) ∧
    (∀ v : ℚ, pv.toReal = some v → v < 1/100 →
      ∃ msg, deposit st dt ctr pv = (.error (.valueError msg), st, ctr)) ∧
    (∀ v : ℚ, pv.toReal = some v → 1/100 ≤ v →
      ∃ r, deposit st dt ctr pv =
        (.ok ("D-" ++ r), { st with balance := st.balance + v }, ctr + 1)) := by
  refine ⟨?_, ?_, ?_⟩
  · intro h
    exact ⟨_, deposit_err st dt ctr pv _ (validate_nonreal pv "deposit" _ h)⟩
  · intro v h hlt
    exact ⟨_, deposit_err st dt ctr pv _ (validate_below pv "deposit" _ v h hlt)⟩
  · intro v h hge
    exact ⟨_, deposit_ok st dt ctr pv v h (not_lt.mpr hge)⟩

theorem C4_deposit_validation_witness :
    ∃ msg, deposit ⟨400, "Mohammad", "Jalalnia", 100, utcTZ⟩ ⟨2020, 1, 2, 3, 4, 5⟩ 100
        (.str "ten") =
      (.error (.valueError msg), ⟨400, "Mohammad", "Jalalnia", 100, utcTZ⟩, 100) :=
  (C4_deposit_validation ⟨400, "Mohammad", "Jalalnia", 100, utcTZ⟩
    ⟨2020, 1, 2, 3, 4, 5⟩ 100 (.str "ten")).1 rfl

/-- C5 (amended): an unrecognized transaction kind makes
`generation_confirmation_code` fail with a `KeyError` — the error raised by
the `Enum` name lookup, not the `ValueError` the rest of the validation
uses — and the counter is not consumed; each recognized kind produces a
code headed by its single-character tag from `{D, W, I, X}`. -/
theorem C5_generation_kind_lookup (acct : Nat) (dt : DT) (ctr : Nat) (kind : String)
    (h1 : kind ≠ "DEPOSIT") (h2 : kind ≠ "WITHDRAW") (h3 : kind ≠ "INTEREST")
    (h4 : kind ≠ "REJECTED") :
    generation_confirmation_code acct dt kind ctr = (.error (.keyError kind), ctr) ∧
    (∀ k, (k = "DEPOSIT" ∨ k = "WITHDRAW" ∨ k = "INTEREST" ∨ k = "REJECTED") →
      generation_confirmation_code acct dt k ctr =
        (.ok (tag_of_kind k ++ "-" ++ natDecimal acct ++ "-" ++ fmtDT dt ++ "-" ++
           natDecimal ctr), ctr + 1)) ∧
    tag_of_kind "DEPOSIT" = "D" ∧ tag_of_kind "WITHDRAW" = "W" ∧
    tag_of_kind "INTEREST" = "I" ∧ tag_of_kind "REJECTED" = "X" := by
  refine ⟨?_, ?_, by decide, by decide, by decide, by decide⟩
  · unfold generation_confirmation_code
    rw [Transaction_Code_none kind h1 h2 h3 h4]
  · rintro k (h | h | h | h) <;> subst h
    · rw [gen_ok acct dt "DEPOSIT" (.tup "D") (by decide) ctr,
          show (EnumVal.tup "D").elem0 = tag_of_kind "DEPOSIT" from by decide]
    · rw [gen_ok acct dt "WITHDRAW" (.tup "W") (by decide) ctr,
          show (EnumVal.tup "W").elem0 = tag_of_kind "WITHDRAW" from by decide]
    · rw [gen_ok acct dt "INTEREST" (.tup "I") (by decide) ctr,
          show (EnumVal.tup "I").elem0 = tag_of_kind "INTEREST" from by decide]
    · rw [gen_ok acct dt "REJECTED" (.str "X") (by decide) ctr,
          show (EnumVal.str "X").elem0 = tag_of_kind "REJECTED" from by decide]

theorem C5_generation_kind_lookup_witness :
    generation_confirmation_code 400 ⟨2020, 1, 2, 3, 4, 5⟩ "TRANSFER" 100 =
      (.error (.keyError "TRANSFER"), 100) ∧
    (∀ k, (k = "DEPOSIT" ∨ k = "WITHDRAW" ∨ k = "INTEREST" ∨ k = "REJECTED") →
      generation_confirmation_code 400 ⟨2020, 1, 2, 3, 4, 5⟩ k 100 =
        (.ok (tag_of_kind k ++ "-" ++ natDecimal 400 ++ "-" ++ fmtDT ⟨2020, 1, 2, 3, 4, 5⟩ ++
           "-" ++ natDecimal 100), 101)) ∧
    tag_of_kind "DEPOSIT" = "D" ∧ tag_of_kind "WITHDRAW" = "W" ∧
    tag_of_kind "INTEREST" = "I" ∧ tag_of_kind "REJECTED" = "X" :=
  C5_generation_kind_lookup 400 ⟨2020, 1, 2, 3, 4, 5⟩ 100 "TRANSFER"
    (by decide) (by decide) (by decide) (by decide)

/-- C5 counterexample to the claim as stated: on the unrecognized kind
`TRANSFER`, generation fails with a `KeyError`, which is not a `ValueError`
(the exception the source raises for every validation failure, and the one
the spec's ValidationError stands for) for any message. -/
theorem C5_counterexample :
    generation_confirmation_code 400 ⟨2020, 1, 2, 3, 4, 5⟩ "TRANSFER" 100 =
      (.error (.keyError "TRANSFER"), 100) ∧
    ∀ msg : String,
      (generation_confirmation_code 400 ⟨2020, 1, 2, 3, 4, 5⟩ "TRANSFER" 100).1 ≠
        .error (.valueError msg) := by
  refine ⟨rfl, ?_⟩
  intro msg h
  have e : (generation_confirmation_code 400 ⟨2020, 1, 2, 3, 4, 5⟩ "TRANSFER" 100).1 =
      .error (.keyError "TRANSFER") := rfl
  rw [e] at h
  injection h with h2
  injection h2

/-- C6 (amended): `parse_confirmation_code` fails with the
"Invalid confirmation code" `ValueError` (the spec's FormatError) whenever
the input does not split on `-` into exactly four parts, and with the
"Invalid transaction datetime." `ValueError` whenever it does split into
four parts but the third part is rejected by the `%Y%m%d%H%M%S` parser.
That parser requires a four-digit year but accepts one- or two-digit
month/day/hour/minute/second fields, so — contrary to the claim as stated —
rejection is not "any third part that is not exact fixed-width
`YYYYMMDDHHMMSS`": some shorter all-digit strings are accepted
(see the counterexample). -/
theorem C6_parse_format_failures (code : String) (ptz : Option TimeZone) :
    ((splitDash code.data).length ≠ 4 →
      parse_confirmation_code code ptz = .error (.valueError "Invalid confirmation code")) ∧
    (∀ p0 p1 p2 p3 : List Char, splitDash code.data = [p0, p1, p2, p3] →
      strptimeYmdHMS (String.mk p2) = none →
      parse_confirmation_code code ptz =
        .error (.valueError "Invalid transaction datetime.")) := by
  constructor
  · intro hlen
    unfold parse_confirmation_code
    rcases hsp : splitDash code.data with _ | ⟨a, _ | ⟨b, _ | ⟨c, _ | ⟨d, _ | ⟨e, tl⟩⟩⟩⟩⟩
    · rfl
    · rfl
    · rfl
    · rfl
    · exact absurd (by rw [hsp]; rfl) hlen
    · rfl
  · intro p0 p1 p2 p3 hsp hstr
    unfold parse_confirmation_code
    rw [hsp]
    dsimp only
    rw [hstr]

theorem C6_parse_format_failures_witness :
    parse_confirmation_code "D-400-20ZZ0102030405-101" none =
      .error (.valueError "Invalid transaction datetime.") :=
  (C6_parse_format_failures "D-400-20ZZ0102030405-101" none).2
    "D".data "400".data "20ZZ0102030405".data "101".data (by decide) rfl

/-- C6 counterexample to the claim as stated: `D-400-202011111-101` splits
into exactly four parts and its third part `202011111` has nine characters,
not the fourteen of the fixed-width `YYYYMMDDHHMMSS` form — yet parsing
succeeds (the lenient `strptime` reads it as 2020-01-01 01:01:01) instead
of failing with a FormatError. -/
theorem C6_counterexample :
    (splitDash ("D-400-202011111-101" : String).data).length = 4 ∧
    ("202011111" : String).length ≠ 14 ∧
    parse_confirmation_code "D-400-202011111-101" none =
      .ok ⟨"400", "D", "101", "2020-01-01T01:01:01", "20200101010101 (UTC)"⟩ :=
  ⟨by decide, by decide, rfl⟩

/-- C7: `pay_interest` adds exactly `balance * rate / 100` to the balance,
where `rate` is the class-wide interest rate in effect at call time (the
explicit shared-state parameter, so any account and any rate value — in
particular one just installed by `set_interest_rate`, whose accepted
non-negative values the second conjunct characterizes — is covered), and
returns an INTEREST (`I-`) confirmation code. -/
theorem C7_pay_interest_shared_rate (st : AccountState) (rate : ℚ) (dt : DT) (ctr : Nat) :
    (∃ r, pay_interest st rate dt ctr =
      (.ok ("I-" ++ r), { st with balance := st.balance + st.balance * rate / 100 },
       ctr + 1)) ∧
    (∀ q : ℚ, 0 ≤ q → set_interest_rate (.float q) = .ok q) := by
  refine ⟨⟨_, pay_interest_eq st rate dt ctr⟩, ?_⟩
  intro q hq
  unfold set_interest_rate
  dsimp only [PyVal.toReal]
  rw [if_neg (not_lt.mpr hq)]

theorem C7_pay_interest_shared_rate_witness :
    (∃ r, pay_interest ⟨400, "Mohammad", "Jalalnia", 100, utcTZ⟩ 5 ⟨2020, 1, 2, 3, 4, 5⟩ 100 =
      (.ok ("I-" ++ r),
       { (⟨400, "Mohammad", "Jalalnia", 100, utcTZ⟩ : AccountState) with
           balance := (⟨400, "Mohammad", "Jalalnia", 100, utcTZ⟩ : AccountState).balance +
             (⟨400, "Mohammad", "Jalalnia", 100, utcTZ⟩ : AccountState).balance * 5 / 100 },
       101)) ∧
    (∀ q : ℚ, 0 ≤ q → set_interest_rate (.float q) = .ok q) :=
  C7_pay_interest_shared_rate ⟨400, "Mohammad", "Jalalnia", 100, utcTZ⟩ 5
    ⟨2020, 1, 2, 3, 4, 5⟩ 100

/-- C8: `TimeZone` construction succeeds for every non-blank name and
integer offsets with minutes in `[-59, 59]` and combined offset within
`[-12:00, +14:00]` (stored offset exactly the signed duration
`hours * 3600 + minutes * 60` seconds), and fails with a `ValueError` when
the name is blank, an offset is not an integer, minutes fall outside
`[-59, 59]`, or the combined offset falls outside `[-12:00, +14:00]`. -/
theorem C8_timezone_construction (name : String) (h m : Int) :
    (pyStrip name ≠ "" → -59 ≤ m → m ≤ 59 → -720 ≤ h * 60 + m → h * 60 + m ≤ 840 →
      TimeZone.init (some name) (.int h) (.int m) = .ok ⟨pyStrip name, h, m⟩ ∧
      (⟨pyStrip name, h, m⟩ : TimeZone).offsetSeconds = h * 3600 + m * 60) ∧
    (pyStrip name = "" →
      TimeZone.init (some name) (.int h) (.int m) =
        .error (.valueError "TimeZone name cannot be empty.")) ∧
    (pyStrip name ≠ "" → ∀ q : ℚ, ∀ pv : PyVal,
      TimeZone.init (some name) (.float q) pv =
        .error (.valueError "Hour offset must be an integer")) ∧
    (pyStrip name ≠ "" → ∀ q : ℚ,
      TimeZone.init (some name) (.int h) (.float q) =
        .error (.valueError "Minute offset must be an integer")) ∧
    (pyStrip name ≠ "" → (m < -59 ∨ 59 < m) →
      TimeZone.init (some name) (.int h) (.int m) =
        .error (.valueError "Minutes offset must be between -59 and 59 (inclusive).")) ∧
    (pyStrip name ≠ "" → -59 ≤ m → m ≤ 59 → (h * 60 + m < -720 ∨ 840 < h * 60 + m) →
      TimeZone.init (some name) (.int h) (.int m) =
        .error (.valueError "Offset must be between -12:00 and +14:00.")) := by
  refine ⟨?_, ?_, ?_, ?_, ?_, ?_⟩
  · intro hne hm1 hm2 ho1 ho2
    constructor
    · unfold TimeZone.init
      dsimp only
      rw [if_neg hne, if_neg (show ¬(m < -59 ∨ 59 < m) by omega),
          if_neg (show ¬(h * 60 + m < -720 ∨ 840 < h * 60 + m) by omega)]
    · rfl
  · intro he
    unfold TimeZone.init
    dsimp only
    rw [if_pos he]
  · intro hne q pv
    unfold TimeZone.init
    dsimp only
    rw [if_neg hne]
  · intro hne q
    unfold TimeZone.init
    dsimp only
    rw [if_neg hne]
  · intro hne hm
    unfold TimeZone.init
    dsimp only
    rw [if_neg hne, if_pos hm]
  · intro hne hm1 hm2 ho
    unfold TimeZone.init
    dsimp only
    rw [if_neg hne, if_neg (show ¬(m < -59 ∨ 59 < m) by omega), if_pos ho]

theorem C8_timezone_construction_witness :
    TimeZone.init (some "IR") (.int 3) (.int 30) = .ok ⟨pyStrip "IR", 3, 30⟩ ∧
    (⟨pyStrip "IR", 3, 30⟩ : TimeZone).offsetSeconds = 3 * 3600 + 30 * 60 :=
  (C8_timezone_construction "IR" 3 30).1 (by decide) (by decide) (by decide)
    (by decide) (by decide)

/-- C10: a successfully constructed account starts with balance at least
0.01, and along any sequence of deposit / withdraw / pay-interest /
set-interest-rate calls (successful or failed) starting from any
non-negative shared rate, the balance never becomes negative; withdrawing
exactly the full balance brings it to exactly 0, and on a zero balance
every withdrawal of a valid amount is rejected (an `X-` code, balance
unchanged). -/
theorem C10_balance_never_negative (an : Int) (fn ln : Option String) (ib : PyVal)
    (tz : Option TimeZone) (st0 : AccountState)
    (hinit : Account.init an fn ln ib tz = .ok st0)
    (rate0 : ℚ) (hr : 0 ≤ rate0) (ctr0 : Nat) (ops : List AccountOp) :
    1/100 ≤ st0.balance ∧
    0 ≤ (runOps ⟨st0, rate0, ctr0⟩ ops).st.balance ∧
    (∀ st : AccountState, ∀ dt : DT, ∀ ctr : Nat, 1/100 ≤ st.balance →
      ((withdraw st dt ctr (.float st.balance)).2.1).balance = 0) ∧
    (∀ st : AccountState, ∀ dt : DT, ∀ ctr : Nat, ∀ q : ℚ, st.balance = 0 → 1/100 ≤ q →
      ∃ r, withdraw st dt ctr (.float q) = (.ok ("X-" ++ r), st, ctr + 1)) := by
  have hb0 : 1/100 ≤ st0.balance := init_balance an fn ln ib tz st0 hinit
  refine ⟨hb0, ?_, ?_, ?_⟩
  · refine (runOps_preserves ops ⟨st0, rate0, ctr0⟩ ?_ ?_).1
    · dsimp only
      linarith
    · exact hr
  · intro st dt ctr hbal
    rw [withdraw_accepted st dt ctr (.float st.balance) st.balance rfl
        (not_lt.mpr hbal) (lt_irrefl st.balance)]
    dsimp only
    exact sub_self _
  · intro st dt ctr q hz hq
    have hb : st.balance < q := by
      rw [hz]
      linarith
    exact ⟨_, withdraw_rejected st dt ctr (.float q) q rfl (not_lt.mpr hq) hb⟩

theorem C10_balance_never_negative_witness :
    0 ≤ (runOps ⟨⟨400, "Mohammad", "Jalalnia", 100, utcTZ⟩, 5, 100⟩
          [.wd ⟨2020, 1, 2, 3, 4, 5⟩ (.float 20), .dep ⟨2020, 1, 2, 3, 4, 5⟩ (.float 1),
           .interest ⟨2020, 1, 2, 3, 4, 5⟩, .setRate (.float 7),
           .wd ⟨2020, 1, 2, 3, 4, 5⟩ (.float 1000)]).st.balance := by
  have e1 : validate_and_set_name (some "Mohammad") "first_name" = .ok "Mohammad" := by
    unfold validate_and_set_name
    dsimp only
    rw [if_neg (by decide)]
  have e2 : validate_and_set_name (some "Jalalnia") "last_name" = .ok "Jalalnia" := by
    unfold validate_and_set_name
    dsimp only
    rw [if_neg (by decide)]
  have e3 : validate_real_number (.float 100) "balance" (some (1/100)) = .ok 100 :=
    validate_some _ _ _ 100 rfl (by norm_num)
  have hinit : Account.init 400 (some "Mohammad") (some "Jalalnia") (.float 100) none =
      .ok ⟨400, "Mohammad", "Jalalnia", 100, utcTZ⟩ := by
    unfold Account.init
    rw [if_neg (by norm_num : ¬ (400 : Int) < 0), e1]
    dsimp only
    rw [e2]
    dsimp only
    rw [e3]
    rfl
  exact (C10_balance_never_negative 400 (some "Mohammad") (some "Jalalnia") (.float 100) none
    ⟨400, "Mohammad", "Jalalnia", 100, utcTZ⟩ hinit 5 (by norm_num) 100
    [.wd ⟨2020, 1, 2, 3, 4, 5⟩ (.float 20), .dep ⟨2020, 1, 2, 3, 4, 5⟩ (.float 1),
     .interest ⟨2020, 1, 2, 3, 4, 5⟩, .setRate (.float 7),
     .wd ⟨2020, 1, 2, 3, 4, 5⟩ (.float 1000)]).2.1
